import Mathlib

/-!
Verification of the emerald_message container model: a shallow embedding of
the email container types (EmailEnvelope, EmailBody, EmailAttachment,
EmailMessageMetadata, EmailContainer), their comparison / hashing / map
projection operations, the generic single-record AVRO decode helper, and the
schema-family validation, with theorems settling the specification claims.

Modelling conventions:
- Python exceptions become an explicit error type `PyErr`; fallible code
  returns `Except PyErr A`.
- The external spooky 128-bit hash and the Python builtin string hash are
  modelled by concrete fold hash functions (`pyHash128`, `pyStrHash`); the
  claims depend only on the hashes being functions of their input strings.
- The external `netaddr.IPAddress` value held by EmailMessageMetadata is
  modelled by its canonical string rendering, since the containers only
  compare it, stringify it (`str(ip)`) and re-parse it (`IPAddress(s)`).
- A decoded AVRO datum (a Python dict) is an association list
  `List (String × AvroValue)`; `pyDictGet` is `d[key]`, raising `KeyError`.
- Python frozensets of strings are `Finset String`; frozensets of
  attachments are kept as the iteration list where only errors are observed.
-/

/-- Errors raised by the embedded code, carrying the claim-relevant data of
the corresponding Python exception. -/
inductive PyErr where
  /-- Bare Python KeyError on a missing dict key. -/
  | keyError (key : String)
  /-- Python TypeError (for example hashing None, or comparing dicts). -/
  | typeError
  /-- Python AttributeError (for example attribute missing on a class or on None). -/
  | attributeError
  /-- EmeraldMessageDeserializationError raised by a from_avro_as_dict factory:
  names the missing key, the count of keys received and the keys present. -/
  | missingField (key : String) (count : Nat) (present : List String)
  /-- EmeraldMessageDeserializationError raised by the generic reader when a
  resource holds more than one record; carries the record count. -/
  | tooManyRecords (count : Nat)
  /-- RuntimeError raised by AvroMessageSchemaFamily.__new__ on a declared
  identifier with no matching schema folder; carries the identifier and the
  discovered folder names. -/
  | familyMismatch (value : String) (folders : List String)
deriving DecidableEq, Repr

instance {E A : Type} [DecidableEq E] [DecidableEq A] : DecidableEq (Except E A)
  | .ok a, .ok b =>
    match decEq a b with
    | isTrue h => isTrue (h ▸ rfl)
    | isFalse h => isFalse (fun hh => h (Except.ok.inj hh))
  | .error a, .error b =>
    match decEq a b with
    | isTrue h => isTrue (h ▸ rfl)
    | isFalse h => isFalse (fun hh => h (Except.error.inj hh))
  | .ok _, .error _ => isFalse (fun hh => Except.noConfusion hh)
  | .error _, .ok _ => isFalse (fun hh => Except.noConfusion hh)

/-- Values stored in a decoded AVRO datum dictionary. -/
inductive AvroValue where
  | str (s : String)
  | int (i : Int)
  | bool (b : Bool)
  | null
  | list (l : List AvroValue)
  | record (fields : List (String × AvroValue))

/-- Model of the external spooky hash128 over a string: a 128-bit fold hash.
The source uses it for large payloads; all claims depend only on its being a
pure function of the string. -/
def pyHash128 (s : String) : Nat :=
  s.data.foldl (fun h c => (h * 31 + c.toNat) % (2 ^ 128)) 7

/-- Model of the Python builtin hash over a string: a 64-bit fold hash. -/
def pyStrHash (s : String) : Nat :=
  s.data.foldl (fun h c => (h * 1000003 + c.toNat) % (2 ^ 64)) 5381

/-- Python dict access d[key] over the association-list model: the value at
the first matching key, or a KeyError. -/
def pyDictGet (d : List (String × AvroValue)) (key : String) : Except PyErr AvroValue :=
  match d with
  | [] => .error (.keyError key)
  | (k, v) :: rest => if k = key then .ok v else pyDictGet rest key

/-- The except-KeyError wrapper shared by the from_avro_as_dict factories: a
bare KeyError from the body is re-raised as the deserialization missing-field
condition carrying the key, the dict size and the keys present; every other
outcome passes through unchanged. -/
def wrapMissing {A : Type} (d : List (String × AvroValue)) (r : Except PyErr A) :
    Except PyErr A :=
  match r with
  | .error (.keyError k) => .error (.missingField k d.length (d.map Prod.fst))
  | other => other

/-- Coerce a list of AVRO values to strings, as iterating a decoded AVRO
array of strings does. -/
def asStrList : List AvroValue → Except PyErr (List String)
  | [] => .ok []
  | .str s :: rest => do
    let tail ← asStrList rest
    .ok (s :: tail)
  | _ :: _ => .error .typeError

/-- Coerce a list of AVRO values to record dictionaries. -/
def asRecList : List AvroValue → Except PyErr (List (List (String × AvroValue)))
  | [] => .ok []
  | .record r :: rest => do
    let tail ← asRecList rest
    .ok (r :: tail)
  | _ :: _ => .error .typeError

/-- Optional boolean rendered into an AVRO datum value (None becomes null). -/
def optBoolToAvro : Option Bool → AvroValue
  | none => .null
  | some b => .bool b

/-- Optional string rendered into an AVRO datum value (None becomes null). -/
def optStrToAvro : Option String → AvroValue
  | none => .null
  | some s => .str s

/-- The repeated Python comparison cascade on strings:
if a < b return True, elif a > b return False, else fall through. -/
def strCascade (a b : String) (rest : Bool) : Bool :=
  if a < b then true else if b < a then false else rest

/-- The Python comparison cascade on naturals. -/
def natCascade (a b : Nat) (rest : Bool) : Bool :=
  if a < b then true else if b < a then false else rest

/-- The Python comparison cascade on integers. -/
def intCascade (a b : Int) (rest : Bool) : Bool :=
  if a < b then true else if b < a then false else rest

/-! ## EmailAttachment (src/emerald_message/containers/email/email_attachment.py) -/

/-- EmailAttachmentParameters: filename, mimetype and base64-encoded contents. -/
structure EmailAttachmentP where
  filename : String
  mimetype : String
  contents_base64 : String
deriving DecidableEq, Repr

/-- EmailAttachment.__eq__: exact match on filename and mimetype, contents
compared through their 128-bit hashes. -/
def attachmentEq (a b : EmailAttachmentP) : Bool :=
  if a.filename ≠ b.filename then false
  else if a.mimetype ≠ b.mimetype then false
  else if pyHash128 a.contents_base64 ≠ pyHash128 b.contents_base64 then false
  else true

/-- EmailAttachment.__lt__: cascade on filename, then mimetype, then contents
length, then the 128-bit contents hash; equal keys give False. -/
def attachmentLt (a b : EmailAttachmentP) : Bool :=
  strCascade a.filename b.filename
    (strCascade a.mimetype b.mimetype
      (natCascade a.contents_base64.length b.contents_base64.length
        (natCascade (pyHash128 a.contents_base64) (pyHash128 b.contents_base64) false)))

/-- EmailAttachment.__gt__: the mirrored cascade (a > b is b < a at each key). -/
def attachmentGt (a b : EmailAttachmentP) : Bool :=
  strCascade b.filename a.filename
    (strCascade b.mimetype a.mimetype
      (natCascade b.contents_base64.length a.contents_base64.length
        (natCascade (pyHash128 b.contents_base64) (pyHash128 a.contents_base64) false)))

/-- EmailAttachment.get_as_dict. -/
def attachmentGetAsDict (a : EmailAttachmentP) : List (String × AvroValue) :=
  [("filename", .str a.filename),
   ("mimetype", .str a.mimetype),
   ("contents_base64", .str a.contents_base64)]

/-- EmailAttachment.from_avro_as_dict: reads the three keys in order inside a
try block whose except KeyError raises the missing-field condition. -/
def attachmentFromAvroAsDict (d : List (String × AvroValue)) :
    Except PyErr EmailAttachmentP :=
  wrapMissing d (do
    let fv ← pyDictGet d "filename"
    let mv ← pyDictGet d "mimetype"
    let cv ← pyDictGet d "contents_base64"
    match fv, mv, cv with
    | .str f, .str m, .str c => .ok ⟨f, m, c⟩
    | _, _, _ => .error .typeError)

/-! ## EmailEnvelope (src/emerald_message/containers/email/email_envelope.py) -/

/-- EmailEnvelopeParameters: from address, frozenset of to addresses, subject
and receipt timestamp. -/
structure EmailEnvelopeP where
  address_from : String
  address_to_collection : Finset String
  message_subject : String
  message_rx_timestamp_iso8601 : String
deriving DecidableEq

/-- The sorted view of the to-address frozenset used by every stringification
of EmailEnvelope (sorted(self.address_to_collection)). -/
def envelopeSortedTo (e : EmailEnvelopeP) : List String :=
  e.address_to_collection.sort (· ≤ ·)

/-- The part of EmailEnvelope.__str__ before the subject text. -/
def envelopeStrBeforeSubject (e : EmailEnvelopeP) : String :=
  "FROM: \"" ++ e.address_from ++ "\n" ++
  "TO: \"" ++ String.intercalate "," (envelopeSortedTo e) ++ "\"" ++ "\n" ++
  "SUBJECT: \""

/-- The part of EmailEnvelope.__str__ after the subject text. -/
def envelopeStrAfterSubject (e : EmailEnvelopeP) : String :=
  "\"" ++ "\n" ++ "RECEIVED: \"" ++ e.message_rx_timestamp_iso8601 ++ "\""

/-- EmailEnvelope.__str__: renders from address, sorted to addresses joined
by commas, subject and receipt timestamp (os.linesep is a newline). -/
def envelopeStr (e : EmailEnvelopeP) : String :=
  envelopeStrBeforeSubject e ++ e.message_subject ++ envelopeStrAfterSubject e

/-- EmailEnvelope.__hash__ = hash(str(self)). -/
def envelopeHash (e : EmailEnvelopeP) : Nat :=
  pyStrHash (envelopeStr e)

/-- EmailEnvelope.__eq__: compares from address, the sorted to-address lists
and the receipt timestamp; the subject is not compared. -/
def envelopeEq (a b : EmailEnvelopeP) : Bool :=
  if a.address_from ≠ b.address_from then false
  else if envelopeSortedTo a ≠ envelopeSortedTo b then false
  else if a.message_rx_timestamp_iso8601 ≠ b.message_rx_timestamp_iso8601 then false
  else true

/-- EmailEnvelope.get_as_dict: the to-address frozenset goes out as a sorted
list. -/
def envelopeGetAsDict (e : EmailEnvelopeP) : List (String × AvroValue) :=
  [("address_from", .str e.address_from),
   ("address_to_collection", .list ((envelopeSortedTo e).map .str)),
   ("message_subject", .str e.message_subject),
   ("message_rx_timestamp_iso8601", .str e.message_rx_timestamp_iso8601)]

/-- EmailEnvelope.from_avro_as_dict: reads the four keys in order (the
to-address list is rebuilt into a frozenset) inside a try block whose except
KeyError raises the missing-field condition. -/
def envelopeFromAvroAsDict (d : List (String × AvroValue)) :
    Except PyErr EmailEnvelopeP :=
  wrapMissing d (do
    let fv ← pyDictGet d "address_from"
    let tv ← pyDictGet d "address_to_collection"
    let sv ← pyDictGet d "message_subject"
    let rv ← pyDictGet d "message_rx_timestamp_iso8601"
    match fv, tv, sv, rv with
    | .str f, .list ts, .str s, .str r => do
      let tos ← asStrList ts
      .ok ⟨f, tos.toFinset, s, r⟩
    | _, _, _, _ => .error .typeError)

/-! ## EmailBody (src/emerald_message/containers/email/email_body.py) -/

/-- EmailBody parameters: required plain-text body and optional HTML body. -/
structure EmailBodyP where
  message_body_text : String
  message_body_html : Option String := none
deriving DecidableEq, Repr

/-- Python str.strip with a single-character argument: removes that character
from the leading and trailing ends only. -/
def pyStripChar (c : Char) (s : String) : String :=
  ⟨((s.data.dropWhile (· = c)).reverse.dropWhile (· = c)).reverse⟩

/-- Python str.split with a separator character: splits at every occurrence,
keeping empty pieces; the empty string yields one empty piece. -/
def pySplitCharAux (c : Char) : List Char → List Char → List String
  | [], acc => [⟨acc.reverse⟩]
  | x :: xs, acc =>
    if x = c then ⟨acc.reverse⟩ :: pySplitCharAux c xs []
    else pySplitCharAux c xs (x :: acc)

/-- Python str.split on one separator character. -/
def pySplitChar (c : Char) (s : String) : List String :=
  pySplitCharAux c s.data []

/-- EmailBody.message_body_as_lines_list:
message_body_text.strip of a carriage return, then split on newline. -/
def messageBodyAsLinesList (b : EmailBodyP) : List String :=
  pySplitChar '\n' (pyStripChar '\r' b.message_body_text)

/-- EmailBody.__eq__: compares the text hashes first and returns False on a
mismatch; only then hashes the two HTML fields, which raises TypeError when
either HTML field is None (hash128 cannot take None). -/
def bodyEq (a b : EmailBodyP) : Except PyErr Bool :=
  if pyHash128 a.message_body_text ≠ pyHash128 b.message_body_text then .ok false
  else
    match a.message_body_html, b.message_body_html with
    | some ha, some hb => .ok (pyHash128 ha = pyHash128 hb)
    | _, _ => .error .typeError

/-- EmailBody.__hash__: when HTML is present the code calls .update on the
integer returned by hash128, which raises AttributeError; when HTML is absent
it returns the text hash. -/
def bodyHash (b : EmailBodyP) : Except PyErr Nat :=
  match b.message_body_html with
  | some _ => .error .attributeError
  | none => .ok (pyHash128 b.message_body_text)

/-- The datum EmailBody.write_avro appends to the AVRO writer. -/
def bodyWriteDatum (b : EmailBodyP) : List (String × AvroValue) :=
  [("message_body_text", .str b.message_body_text),
   ("message_body_html", optStrToAvro b.message_body_html)]

/-- Construction attempt of an EmailBody from one decoded datum inside
EmailBody.from_avro: the two bare dict accesses are evaluated first as the
keyword arguments (a bare KeyError can escape), after which the
EmailBody(...) call itself raises TypeError — EmailBody never overrides the
abstract classmethod _get_container_parameters_required_subclass_type, so
the class stays abstract under ABCMeta, and its __init__ also calls the base
__init__ without the required container_parameters argument. No EmailBody
value is ever produced. -/
def bodyFromDatum (d : List (String × AvroValue)) : Except PyErr EmailBodyP := do
  let _tv ← pyDictGet d "message_body_text"
  let _hv ← pyDictGet d "message_body_html"
  .error .typeError

/-- EmailBody.from_avro over the record list of a resource: the loop tries
to construct an EmailBody from each datum in order (there is no record-count
check), but the first construction already raises TypeError because
EmailBody is abstract, so any resource with at least one record fails there;
with zero records the loop never runs and the code attempts to raise
DataFileException, but building that message calls get_avro_schema_record on
the abstract base class, whose abstract classmethod returns None, so the
attribute access raises AttributeError first. -/
def emailBodyFromAvro (datums : List (List (String × AvroValue))) :
    Except PyErr EmailBodyP :=
  match datums with
  | [] => .error .attributeError
  | d :: _ => bodyFromDatum d

/-! ## EmailMessageMetadata
(src/emerald_message/containers/email/email_message_metadata.py) -/

/-- EmailMessageMetadataParameters. The sender IP is the external
netaddr.IPAddress value, modelled by its canonical string rendering. -/
structure EmailMessageMetadataP where
  router_source_tag : String
  routed_timestamp_iso8601 : String
  email_sender_ip : String
  attachment_count : Int
  email_headers : String
  email_spf_sender_passed : Option Bool := none
  email_dkim_sender_passed : Option Bool := none
deriving DecidableEq, Repr

/-- EmailMessageMetadata.authentication_filters_state: None whenever either
flag is None, otherwise the conjunction of the two booleans. -/
def authenticationFiltersState (m : EmailMessageMetadataP) : Option Bool :=
  if m.email_dkim_sender_passed = none ∨ m.email_spf_sender_passed = none then none
  else some (m.email_spf_sender_passed.getD false && m.email_dkim_sender_passed.getD false)

/-- One optional-boolean step of EmailMessageMetadata.__lt__: the Python
try-compare with the except TypeError fallback. Returns some answer when the
comparison decides, none to fall through to the next key. None below False
below True; equal values fall through. -/
def optBoolLtStep : Option Bool → Option Bool → Option Bool
  | some a, some b => if a < b then some true else if b < a then some false else none
  | none, none => none
  | none, some _ => some true
  | some _, none => some false

/-- One optional-boolean key of the __lt__ cascade: return the decided
answer, or fall through to the rest when the key does not decide. -/
def optBoolLtResolve (x y : Option Bool) (rest : Bool) : Bool :=
  match optBoolLtStep x y with
  | some r => r
  | none => rest

/-- EmailMessageMetadata.__lt__: cascade on router source tag, routed
timestamp, sender IP (the IPAddress order modelled through its rendering),
attachment count, headers, then the two optional boolean flags in order; all
equal gives False. -/
def metadataLt (a b : EmailMessageMetadataP) : Bool :=
  strCascade a.router_source_tag b.router_source_tag
    (strCascade a.routed_timestamp_iso8601 b.routed_timestamp_iso8601
      (strCascade a.email_sender_ip b.email_sender_ip
        (intCascade a.attachment_count b.attachment_count
          (strCascade a.email_headers b.email_headers
            (optBoolLtResolve a.email_spf_sender_passed b.email_spf_sender_passed
              (optBoolLtResolve a.email_dkim_sender_passed b.email_dkim_sender_passed
                false))))))

/-- EmailMessageMetadata.get_as_dict: the sender IP goes out as its string
form, the optional flags as optional booleans. -/
def metadataGetAsDict (m : EmailMessageMetadataP) : List (String × AvroValue) :=
  [("router_source_tag", .str m.router_source_tag),
   ("routed_timestamp_iso8601", .str m.routed_timestamp_iso8601),
   ("email_sender_ip", .str m.email_sender_ip),
   ("attachment_count", .int m.attachment_count),
   ("email_headers", .str m.email_headers),
   ("email_spf_sender_passed", optBoolToAvro m.email_spf_sender_passed),
   ("email_dkim_sender_passed", optBoolToAvro m.email_dkim_sender_passed)]

/-- EmailMessageMetadata.from_avro_as_dict: reads the seven keys in order
(the IP string is re-parsed into an IPAddress) inside a try block whose
except KeyError raises the missing-field condition. -/
def metadataFromAvroAsDict (d : List (String × AvroValue)) :
    Except PyErr EmailMessageMetadataP :=
  wrapMissing d (do
    let rv ← pyDictGet d "router_source_tag"
    let tv ← pyDictGet d "routed_timestamp_iso8601"
    let iv ← pyDictGet d "email_sender_ip"
    let cv ← pyDictGet d "attachment_count"
    let hv ← pyDictGet d "email_headers"
    let sv ← pyDictGet d "email_spf_sender_passed"
    let kv ← pyDictGet d "email_dkim_sender_passed"
    match rv, tv, iv, cv, hv with
    | .str r, .str t, .str i, .int c, .str h =>
      match sv, kv with
      | .bool s, .bool k => .ok ⟨r, t, i, c, h, some s, some k⟩
      | .bool s, .null => .ok ⟨r, t, i, c, h, some s, none⟩
      | .null, .bool k => .ok ⟨r, t, i, c, h, none, some k⟩
      | .null, .null => .ok ⟨r, t, i, c, h, none, none⟩
      | _, _ => .error .typeError
    | _, _, _, _, _ => .error .typeError)

/-! ## EmailContainer (src/emerald_message/containers/email/email_container.py) -/

/-- EmailContainerParameters: metadata, envelope, body and a frozenset of
attachments, kept here as its iteration list. -/
structure EmailContainerP where
  email_message_metadata : EmailMessageMetadataP
  email_envelope : EmailEnvelopeP
  email_body : EmailBodyP
  email_attachment_collection : List EmailAttachmentP

/-- EmailContainer.get_as_dict: the dict literal evaluates the metadata and
envelope projections, then calls self.email_body.get_as_dict() — but
EmailBody defines no get_as_dict method, so the call raises AttributeError
on every instance; the sorted attachment-dict list is never reached. -/
def containerGetAsDict (_c : EmailContainerP) :
    Except PyErr (List (String × AvroValue)) :=
  .error .attributeError

/-- EmailContainer.from_avro_as_dict: the attachment-collection key is read
and its attachments built before the try block, so a missing
email_attachment_collection raises a bare KeyError; inside the try block the
metadata and envelope keys are read (a KeyError there becomes the
missing-field condition), after which the code evaluates
EmailBody.from_avro_as_dict — an attribute EmailBody does not define — so
AttributeError is raised before the email_body key is ever accessed and the
factory never returns a container. -/
def containerFromAvroAsDict (d : List (String × AvroValue)) :
    Except PyErr EmailContainerP := do
  let av ← pyDictGet d "email_attachment_collection"
  let attDicts ← (match av with
    | .list l => asRecList l
    | _ => .error .typeError)
  let _atts ← attDicts.mapM attachmentFromAvroAsDict
  wrapMissing d (do
    let mv ← pyDictGet d "email_message_metadata"
    let _md ← (match mv with
      | .record r => metadataFromAvroAsDict r
      | _ => .error .typeError)
    let ev ← pyDictGet d "email_envelope"
    let _env ← (match ev with
      | .record r => envelopeFromAvroAsDict r
      | _ => .error .typeError)
    .error .attributeError)

/-! ## Generic single-record decode
(src/emerald_message/containers/abstract_container.py, _from_avro_generic) -/

/-- AbstractContainer._from_avro_generic over the record list of a resource:
keeps the first datum while counting all of them; more than one record
raises the too-many-records deserialization error carrying the count. With
zero records it attempts to raise the no-data deserialization error, but
building that message calls get_avro_schema_record on the abstract base
class, whose abstract classmethod returns None, so the attribute access
raises AttributeError first. -/
def fromAvroGeneric {A : Type} (datums : List A) : Except PyErr A :=
  if datums.length > 1 then .error (.tooManyRecords datums.length)
  else
    match datums with
    | [] => .error .attributeError
    | d :: _ => .ok d

/-- EmailAttachment.write_avro: the resource holds the single projected
datum. -/
def attachmentWriteAvro (a : EmailAttachmentP) : List (List (String × AvroValue)) :=
  [attachmentGetAsDict a]

/-- EmailEnvelope.write_avro. -/
def envelopeWriteAvro (e : EmailEnvelopeP) : List (List (String × AvroValue)) :=
  [envelopeGetAsDict e]

/-- EmailMessageMetadata.write_avro. -/
def metadataWriteAvro (m : EmailMessageMetadataP) : List (List (String × AvroValue)) :=
  [metadataGetAsDict m]

/-- EmailBody.write_avro appends exactly one datum. -/
def bodyWriteAvro (b : EmailBodyP) : List (List (String × AvroValue)) :=
  [bodyWriteDatum b]

/-- EmailAttachment.from_avro = from_avro_as_dict after the generic
single-record read. -/
def attachmentFromAvro (file : List (List (String × AvroValue))) :
    Except PyErr EmailAttachmentP := do
  let d ← fromAvroGeneric file
  attachmentFromAvroAsDict d

/-- EmailEnvelope.from_avro. -/
def envelopeFromAvro (file : List (List (String × AvroValue))) :
    Except PyErr EmailEnvelopeP := do
  let d ← fromAvroGeneric file
  envelopeFromAvroAsDict d

/-- EmailMessageMetadata.from_avro. -/
def metadataFromAvro (file : List (List (String × AvroValue))) :
    Except PyErr EmailMessageMetadataP := do
  let d ← fromAvroGeneric file
  metadataFromAvroAsDict d

/-- EmailContainer.from_avro. -/
def containerFromAvro (file : List (List (String × AvroValue))) :
    Except PyErr EmailContainerP := do
  let d ← fromAvroGeneric file
  containerFromAvroAsDict d

/-! ## Schema family registry
(src/emerald_message/avro_schemas/avro_message_schema_family.py) -/

/-- One top-level entry of the schema resource root, as os.scandir sees it. -/
structure DirEntry where
  name : String
  isDir : Bool
deriving DecidableEq, Repr

/-- Python str.startswith, computed structurally over the character lists. -/
def strStartsWith (s p : String) : Bool :=
  go s.data p.data
where
  go : List Char → List Char → Bool
  | _, [] => true
  | [], _ :: _ => false
  | c :: cs, d :: ds => c = d && go cs ds

/-- AvroMessageSchemaFamily.enumerate_schema_family_names: the names of the
scanned entries that are directories and start with neither a dot nor a
double underscore. -/
def enumerateSchemaFamilyNames (entries : List DirEntry) : List String :=
  (entries.filter (fun e =>
    !(strStartsWith e.name ".") && !(strStartsWith e.name "__") && e.isDir)).map (·.name)

/-- AvroMessageSchemaFamily.__new__ for one declared enumeration value:
raises RuntimeError when the value is not among the discovered folder
names. -/
def familyNew (value : String) (entries : List DirEntry) : Except PyErr Unit :=
  if value ∈ enumerateSchemaFamilyNames entries then .ok ()
  else .error (.familyMismatch value (enumerateSchemaFamilyNames entries))

/-- Initialization of the family enumeration: each declared member value runs
AvroMessageSchemaFamily.__new__ in turn; the first failure halts the
process. -/
def validateFamilies (declared : List String) (entries : List DirEntry) :
    Except PyErr Unit :=
  match declared with
  | [] => .ok ()
  | d :: rest =>
    match familyNew d entries with
    | .ok _ => validateFamilies rest entries
    | .error e => .error e

/-! ## Specification-side helpers and sample data -/

/-- Specification-side rank of an optional boolean flag: absent below False
below True. -/
def rankOpt : Option Bool → Nat
  | none => 0
  | some false => 1
  | some true => 2

/-- Whether a result is the missing-field deserialization condition. -/
def isMissingFieldError {A : Type} : Except PyErr A → Bool
  | .error (.missingField _ _ _) => true
  | _ => false

/-- EmailEnvelope built by a caller holding a to-address list: the
construction wraps the list in a frozenset. -/
def envelopeOfToList (f : String) (tos : List String) (s r : String) :
    EmailEnvelopeP :=
  ⟨f, tos.toFinset, s, r⟩

/-- A well-formed decoded metadata datum. -/
def sampleMetadataDict : List (String × AvroValue) :=
  metadataGetAsDict ⟨"tag", "ts", "1.2.3.4", 0, "hdr", none, none⟩

/-- A well-formed decoded envelope datum. -/
def sampleEnvelopeDict : List (String × AvroValue) :=
  [("address_from", .str "a@b"),
   ("address_to_collection", .list [.str "c@d"]),
   ("message_subject", .str "s"),
   ("message_rx_timestamp_iso8601", .str "t")]

/-- A well-formed decoded body datum. -/
def sampleBodyDict : List (String × AvroValue) :=
  [("message_body_text", .str "x"), ("message_body_html", .null)]

/-- A complete, well-formed decoded container datum carrying all four keys. -/
def sampleContainerDict : List (String × AvroValue) :=
  [("email_message_metadata", .record sampleMetadataDict),
   ("email_envelope", .record sampleEnvelopeDict),
   ("email_body", .record sampleBodyDict),
   ("email_attachment_collection", .list [])]

/-- A container datum lacking only the email_attachment_collection key. -/
def containerDictNoAttachments : List (String × AvroValue) :=
  [("email_message_metadata", .record sampleMetadataDict),
   ("email_envelope", .record sampleEnvelopeDict),
   ("email_body", .record sampleBodyDict)]

/-! ## General helper lemmas -/

theorem strCascade_self (a : String) (rest : Bool) : strCascade a a rest = rest := by
  simp [strCascade]

theorem natCascade_self (a : Nat) (rest : Bool) : natCascade a a rest = rest := by
  simp [natCascade]

theorem intCascade_self (a : Int) (rest : Bool) : intCascade a a rest = rest := by
  simp [intCascade]

theorem exBind_ok {E A B : Type} (a : A) (f : A → Except E B) :
    (Except.ok (ε := E) a >>= f) = f a := rfl

theorem exBind_error {E A B : Type} (e : E) (f : A → Except E B) :
    (Except.error (α := A) e >>= f) = .error e := rfl

theorem asStrList_map_str (l : List String) : asStrList (l.map .str) = .ok l := by
  induction l with
  | nil => rfl
  | cons x xs ih =>
    show (asStrList (xs.map .str) >>= fun tail => Except.ok (x :: tail)) = _
    rw [ih]; rfl

theorem stringDataInj {s t : String} (h : s.data = t.data) : s = t := by
  cases s; cases t; exact congrArg String.mk h

theorem optBoolLtStep_self (x : Option Bool) : optBoolLtStep x x = none := by
  rcases x with _ | b
  · rfl
  · cases b <;> rfl

theorem optBoolLtResolve_self (x : Option Bool) (rest : Bool) :
    optBoolLtResolve x x rest = rest := by
  simp [optBoolLtResolve, optBoolLtStep_self]

theorem optBoolLtResolve_rank (x y : Option Bool) :
    optBoolLtResolve x y false = decide (rankOpt x < rankOpt y) := by
  rcases x with _ | b1 <;> rcases y with _ | b2
  · rfl
  · cases b2 <;> rfl
  · cases b1 <;> rfl
  · cases b1 <;> cases b2 <;> rfl

theorem natCascade_decide (x y : Nat) : natCascade x y false = decide (x < y) := by
  rcases Nat.lt_trichotomy x y with h | h | h
  · simp [natCascade, h]
  · subst h; simp [natCascade]
  · simp [natCascade, h, Nat.lt_asymm h]

/-! ## Claim theorems -/

/-- C8: the source computes the line list as message_body_text.strip of a
carriage return followed by a split on newline, but the Python strip removes
only leading and trailing characters, so mixed CRLF line endings leave
carriage returns inside the resulting lines, contradicting the specified
stripping of all carriage returns (and the function's own comment). On the
input consisting of the letter a, a carriage return, a newline and the
letter b, the first line still contains the carriage return. -/
theorem C8_lines_list_keeps_carriage_returns :
    messageBodyAsLinesList ⟨"a\r\nb", none⟩ = ["a\r", "b"] ∧
    ∃ line ∈ messageBodyAsLinesList ⟨"a\r\nb", none⟩, '\r' ∈ line.data :=
  ⟨by decide, "a\r", by decide, by decide⟩

/-- C2 counterexample: schema-family validation is not symmetric. With the
declared identifier schema_email and a resource tree holding the two
non-hidden folders schema_email and schema_extra, initialization succeeds
even though the folder schema_extra matches no declared identifier, so the
claimed if-and-only-if fails at this input. -/
theorem C2_extra_folder_not_detected :
    validateFamilies ["schema_email"]
      [⟨"schema_email", true⟩, ⟨"schema_extra", true⟩] = .ok () ∧
    "schema_extra" ∈ enumerateSchemaFamilyNames
      [⟨"schema_email", true⟩, ⟨"schema_extra", true⟩] ∧
    "schema_extra" ∉ ["schema_email"] :=
  ⟨rfl, by decide, by decide⟩

/-- C2 amended: initialization of the family enumeration succeeds exactly
when every declared family identifier is among the non-hidden top-level
folders discovered under the schema resource root; a declared identifier
with no matching folder is fatal, but a folder with no matching declared
identifier is not detected. -/
theorem C2_validation_checks_declared_only (declared : List String)
    (entries : List DirEntry) :
    validateFamilies declared entries = .ok () ↔
      ∀ d ∈ declared, d ∈ enumerateSchemaFamilyNames entries := by
  induction declared with
  | nil => simp [validateFamilies]
  | cons d rest ih =>
    simp only [validateFamilies, familyNew]
    by_cases h : d ∈ enumerateSchemaFamilyNames entries
    · simp [h, ih]
    · simp [h]

/-- C10 counterexample: comparing two EmailBody values whose HTML fields are
both absent does not always raise — when the text hashes differ, __eq__
returns False before ever hashing the HTML fields, refuting the claim that
any such comparison raises. -/
theorem C10_eq_returns_false_without_html :
    bodyEq ⟨"a", none⟩ ⟨"b", none⟩ = .ok false := by decide

/-- C10 amended: EmailBody.__eq__ compares the text hashes first and returns
False on a mismatch regardless of the HTML fields; only when the text hashes
agree does it hash the HTML fields, raising TypeError if either is absent
and returning a boolean only when both are present. EmailBody.__hash__
raises AttributeError exactly when HTML is present (it calls .update on the
integer hash) and returns the text hash when HTML is absent. -/
theorem C10_partial_eq_and_hash (b1 b2 : EmailBodyP) :
    (pyHash128 b1.message_body_text ≠ pyHash128 b2.message_body_text →
      bodyEq b1 b2 = .ok false) ∧
    (pyHash128 b1.message_body_text = pyHash128 b2.message_body_text →
      (b1.message_body_html = none ∨ b2.message_body_html = none) →
      bodyEq b1 b2 = .error .typeError) ∧
    (∀ h1 h2, b1.message_body_html = some h1 → b2.message_body_html = some h2 →
      pyHash128 b1.message_body_text = pyHash128 b2.message_body_text →
      bodyEq b1 b2 = .ok (decide (pyHash128 h1 = pyHash128 h2))) ∧
    (b1.message_body_html = none → bodyHash b1 = .ok (pyHash128 b1.message_body_text)) ∧
    (∀ h, b1.message_body_html = some h → bodyHash b1 = .error .attributeError) := by
  refine ⟨?_, ?_, ?_, ?_, ?_⟩
  · intro hne; simp [bodyEq, hne]
  · intro heq hnone
    rcases b1 with ⟨t1, h1⟩; rcases b2 with ⟨t2, h2⟩
    simp only at heq hnone
    rcases hnone with h | h <;> subst h <;> simp [bodyEq, heq]
  · intro h1 h2 hh1 hh2 heq
    rcases b1 with ⟨t1, o1⟩; rcases b2 with ⟨t2, o2⟩
    simp only at hh1 hh2 heq
    subst hh1; subst hh2
    simp [bodyEq, heq]
  · intro h; rcases b1 with ⟨t1, o1⟩; simp only at h; subst h; simp [bodyHash]
  · intro h hh; rcases b1 with ⟨t1, o1⟩; simp only at hh; subst hh; simp [bodyHash]

/-- C10 witness: the amended theorem applied at two concrete bodies carrying
identical text and HTML. -/
theorem C10_partial_eq_and_hash_witness :
    bodyEq ⟨"t", some "x"⟩ ⟨"t", some "x"⟩ = .ok true ∧
    bodyHash ⟨"t", some "x"⟩ = .error .attributeError := by
  constructor
  · have h := (C10_partial_eq_and_hash ⟨"t", some "x"⟩ ⟨"t", some "x"⟩).2.2.1
      "x" "x" rfl rfl rfl
    simpa using h
  · exact (C10_partial_eq_and_hash ⟨"t", some "x"⟩ ⟨"t", some "x"⟩).2.2.2.2 "x" rfl

/-- C5: two EmailEnvelope values built from the same from address, subject
and receipt timestamp and from the same to-addresses supplied in different
construction orders compare equal, hash identically and produce identical
get_as_dict output, whose address_to_collection is a sorted list. -/
theorem C5_envelope_invariant_under_order (f s r : String) (tos1 tos2 : List String)
    (hp : List.Perm tos1 tos2) :
    envelopeEq (envelopeOfToList f tos1 s r) (envelopeOfToList f tos2 s r) = true ∧
    envelopeHash (envelopeOfToList f tos1 s r) = envelopeHash (envelopeOfToList f tos2 s r) ∧
    envelopeGetAsDict (envelopeOfToList f tos1 s r) =
      envelopeGetAsDict (envelopeOfToList f tos2 s r) ∧
    List.Sorted (· ≤ ·) (envelopeSortedTo (envelopeOfToList f tos1 s r)) := by
  have he : envelopeOfToList f tos1 s r = envelopeOfToList f tos2 s r := by
    simp [envelopeOfToList, List.toFinset_eq_of_perm tos1 tos2 hp]
  refine ⟨?_, by rw [he], by rw [he], Finset.sort_sorted _ _⟩
  rw [he]; simp [envelopeEq]

/-- C5 witness: the theorem applied to the to-address lists a,b and b,a. -/
theorem C5_envelope_invariant_under_order_witness :
    envelopeEq (envelopeOfToList "f" ["a", "b"] "s" "r")
      (envelopeOfToList "f" ["b", "a"] "s" "r") = true :=
  (C5_envelope_invariant_under_order "f" "s" "r" ["a", "b"] ["b", "a"]
    (List.Perm.swap "b" "a" [])).1

/-- C9: EmailEnvelope.__eq__ ignores message_subject — two envelopes
agreeing on from address, to-address set and receipt timestamp but differing
in subject compare equal, while their string forms and get_as_dict
projections differ; since __hash__ hashes the string form, equal envelopes
need not hash identically, as the concrete pair differing only in subject
shows. -/
theorem C9_eq_ignores_subject (f r s1 s2 : String) (tos : Finset String)
    (hs : s1 ≠ s2) :
    envelopeEq ⟨f, tos, s1, r⟩ ⟨f, tos, s2, r⟩ = true ∧
    envelopeStr ⟨f, tos, s1, r⟩ ≠ envelopeStr ⟨f, tos, s2, r⟩ ∧
    envelopeGetAsDict ⟨f, tos, s1, r⟩ ≠ envelopeGetAsDict ⟨f, tos, s2, r⟩ ∧
    envelopeEq ⟨"f", ∅, "a", "t"⟩ ⟨"f", ∅, "b", "t"⟩ = true ∧
    envelopeHash ⟨"f", ∅, "a", "t"⟩ ≠ envelopeHash ⟨"f", ∅, "b", "t"⟩ := by
  refine ⟨by simp [envelopeEq, envelopeSortedTo], ?_, ?_, ?_, ?_⟩
  · intro h
    apply hs
    have hd := congrArg String.data h
    simp only [envelopeStr, envelopeStrBeforeSubject, envelopeStrAfterSubject,
      envelopeSortedTo, String.data_append, List.append_assoc,
      List.append_cancel_left_eq, List.append_cancel_right_eq] at hd
    exact stringDataInj hd
  · intro h
    simp only [envelopeGetAsDict, List.cons.injEq, Prod.mk.injEq,
      AvroValue.str.injEq] at h
    exact hs h.2.2.1.2
  · simp [envelopeEq, envelopeSortedTo, Finset.sort_empty]
  · simp only [envelopeHash, envelopeStr, envelopeStrBeforeSubject,
      envelopeStrAfterSubject, envelopeSortedTo, Finset.sort_empty]
    decide

/-- C9 witness: the theorem applied to subjects a and b. -/
theorem C9_eq_ignores_subject_witness :
    envelopeEq ⟨"f", ∅, "a", "t"⟩ ⟨"f", ∅, "b", "t"⟩ = true ∧
    envelopeHash ⟨"f", ∅, "a", "t"⟩ ≠ envelopeHash ⟨"f", ∅, "b", "t"⟩ := by
  have h := C9_eq_ignores_subject "f" "t" "a" "b" ∅ (by decide)
  exact ⟨h.2.2.2.1, h.2.2.2.2⟩

/-- C6: the derived tri-state authentication result is True exactly when
both flags are present and True, unknown exactly when either flag is absent,
and False exactly when both are present and at least one is False; and the
__lt__ ordering, on two metadata values agreeing on every non-flag field,
orders each optional boolean flag by the rank placing absent below False
below True (the flag decides when the other flag agrees). -/
theorem C6_tristate_and_flag_order (m m1 m2 : EmailMessageMetadataP)
    (hr : m1.router_source_tag = m2.router_source_tag)
    (ht : m1.routed_timestamp_iso8601 = m2.routed_timestamp_iso8601)
    (hi : m1.email_sender_ip = m2.email_sender_ip)
    (hc : m1.attachment_count = m2.attachment_count)
    (hh : m1.email_headers = m2.email_headers) :
    (authenticationFiltersState m = some true ↔
      m.email_spf_sender_passed = some true ∧ m.email_dkim_sender_passed = some true) ∧
    (authenticationFiltersState m = none ↔
      m.email_spf_sender_passed = none ∨ m.email_dkim_sender_passed = none) ∧
    (authenticationFiltersState m = some false ↔
      ∃ x y, m.email_spf_sender_passed = some x ∧ m.email_dkim_sender_passed = some y ∧
        (x = false ∨ y = false)) ∧
    (m1.email_dkim_sender_passed = m2.email_dkim_sender_passed →
      metadataLt m1 m2 =
        decide (rankOpt m1.email_spf_sender_passed < rankOpt m2.email_spf_sender_passed)) ∧
    (m1.email_spf_sender_passed = m2.email_spf_sender_passed →
      metadataLt m1 m2 =
        decide (rankOpt m1.email_dkim_sender_passed < rankOpt m2.email_dkim_sender_passed)) := by
  rcases m with ⟨mr, mt, mi, mc, mh, msp, mdk⟩
  rcases m1 with ⟨r1, t1, i1, c1, h1, sp1, dk1⟩
  rcases m2 with ⟨r2, t2, i2, c2, h2, sp2, dk2⟩
  simp only at hr ht hi hc hh
  subst hr; subst ht; subst hi; subst hc; subst hh
  refine ⟨?_, ?_, ?_, ?_, ?_⟩
  · rcases msp with _ | x <;> rcases mdk with _ | y <;> simp [authenticationFiltersState]
  · rcases msp with _ | x <;> rcases mdk with _ | y <;> simp [authenticationFiltersState]
  · rcases msp with _ | x <;> rcases mdk with _ | y <;>
      simp [authenticationFiltersState] <;> cases x <;> cases y <;> decide
  · intro hdk
    simp only at hdk
    subst hdk
    simp only [metadataLt, strCascade_self, intCascade_self,
      optBoolLtResolve_self, optBoolLtResolve_rank]
  · intro hsp
    simp only at hsp
    subst hsp
    simp only [metadataLt, strCascade_self, intCascade_self,
      optBoolLtResolve_self, optBoolLtResolve_rank]

/-- C6 witness: the theorem applied at concrete metadata values — an absent
SPF flag sorts below a present False SPF flag, and two passing flags give
the True tri-state. -/
theorem C6_tristate_and_flag_order_witness :
    metadataLt ⟨"g", "h", "i", 1, "j", none, some true⟩
      ⟨"g", "h", "i", 1, "j", some false, some true⟩ = true ∧
    authenticationFiltersState ⟨"g", "h", "i", 1, "j", some true, some true⟩ = some true := by
  constructor
  · have h := (C6_tristate_and_flag_order ⟨"g", "h", "i", 1, "j", some true, some true⟩
      ⟨"g", "h", "i", 1, "j", none, some true⟩
      ⟨"g", "h", "i", 1, "j", some false, some true⟩ rfl rfl rfl rfl rfl).2.2.2.1 rfl
    rw [h]; decide
  · exact ((C6_tristate_and_flag_order ⟨"g", "h", "i", 1, "j", some true, some true⟩
      ⟨"g", "h", "i", 1, "j", none, some true⟩
      ⟨"g", "h", "i", 1, "j", some false, some true⟩ rfl rfl rfl rfl rfl).1).mpr ⟨rfl, rfl⟩

/-- C7: EmailAttachment ordering is decided primarily by filename, then by
mimetype, and for identical filename and mimetype by contents length and
then by the 128-bit contents hash — the contents enter the comparison only
through their length and hash, never through a raw comparison; __gt__ is the
mirror image. -/
theorem C7_attachment_order (a b : EmailAttachmentP) :
    (a.filename ≠ b.filename → attachmentLt a b = decide (a.filename < b.filename)) ∧
    (a.filename = b.filename → a.mimetype ≠ b.mimetype →
      attachmentLt a b = decide (a.mimetype < b.mimetype)) ∧
    (a.filename = b.filename → a.mimetype = b.mimetype →
      attachmentLt a b =
        (if a.contents_base64.length < b.contents_base64.length then true
         else if b.contents_base64.length < a.contents_base64.length then false
         else decide (pyHash128 a.contents_base64 < pyHash128 b.contents_base64))) ∧
    (a.filename = b.filename → a.mimetype = b.mimetype →
      attachmentGt a b =
        (if b.contents_base64.length < a.contents_base64.length then true
         else if a.contents_base64.length < b.contents_base64.length then false
         else decide (pyHash128 b.contents_base64 < pyHash128 a.contents_base64))) := by
  refine ⟨?_, ?_, ?_, ?_⟩
  · intro hne
    rcases lt_trichotomy a.filename b.filename with h | h | h
    · simp [attachmentLt, strCascade, h]
    · exact absurd h hne
    · simp [attachmentLt, strCascade, h, lt_asymm h, not_lt_of_gt h]
  · intro hf hm
    rcases lt_trichotomy a.mimetype b.mimetype with h | h | h
    · simp [attachmentLt, hf, strCascade_self, strCascade, h]
    · exact absurd h hm
    · simp [attachmentLt, hf, strCascade_self, strCascade, h, lt_asymm h, not_lt_of_gt h]
  · intro hf hm
    simp only [attachmentLt, hf, hm, strCascade_self, natCascade_decide]
    simp only [natCascade]
  · intro hf hm
    simp only [attachmentGt, hf, hm, strCascade_self, natCascade_decide]
    simp only [natCascade]

/-- C7 witness: attachments sharing filename and mimetype with contents of
lengths two and one are ordered by the contents length. -/
theorem C7_attachment_order_witness :
    attachmentLt ⟨"f", "m", "xx"⟩ ⟨"f", "m", "y"⟩ = false ∧
    attachmentGt ⟨"f", "m", "xx"⟩ ⟨"f", "m", "y"⟩ = true := by
  constructor
  · have h := (C7_attachment_order ⟨"f", "m", "xx"⟩ ⟨"f", "m", "y"⟩).2.2.1 rfl rfl
    rw [h]; decide
  · have h := (C7_attachment_order ⟨"f", "m", "xx"⟩ ⟨"f", "m", "y"⟩).2.2.2 rfl rfl
    rw [h]; decide

/-- C1: write followed by read restores every EmailAttachment, EmailEnvelope
(including the to-address frozenset rebuilt from the sorted list) and
EmailMessageMetadata value, but the round trip fails for the other two
types: decoding any EmailBody resource, even a well-formed single-record
one, raises TypeError because EmailBody never overrides the abstract
classmethod required by its base class and so cannot be instantiated; and
EmailContainer fails on every instance because EmailContainer.get_as_dict
calls get_as_dict on an EmailBody, which defines none, and
EmailContainer.from_avro_as_dict calls EmailBody.from_avro_as_dict, which
does not exist either — both raise AttributeError, shown on a complete
well-formed container resource. -/
theorem C1_leaf_round_trip_container_broken :
    (∀ a : EmailAttachmentP, attachmentFromAvro (attachmentWriteAvro a) = .ok a) ∧
    (∀ e : EmailEnvelopeP, envelopeFromAvro (envelopeWriteAvro e) = .ok e) ∧
    (∀ m : EmailMessageMetadataP, metadataFromAvro (metadataWriteAvro m) = .ok m) ∧
    (∀ b : EmailBodyP, emailBodyFromAvro (bodyWriteAvro b) = .error .typeError) ∧
    (∀ c : EmailContainerP, containerGetAsDict c = .error .attributeError) ∧
    containerFromAvro [sampleContainerDict] = .error .attributeError := by
  refine ⟨fun a => rfl, ?_, ?_, fun b => rfl, fun c => rfl, rfl⟩
  · intro e
    rcases e with ⟨f, tos, s, r⟩
    simp [envelopeFromAvro, envelopeWriteAvro, fromAvroGeneric, envelopeFromAvroAsDict,
          envelopeGetAsDict, pyDictGet, wrapMissing, asStrList_map_str, envelopeSortedTo,
          Finset.sort_toFinset, exBind_ok]
  · intro m
    rcases m with ⟨r, t, i, c, h, sp, dk⟩
    cases sp <;> cases dk <;> rfl

/-- C3: the generic single-record reader raises the too-many-records
deserialization condition carrying the record count whenever a resource
holds more than one record, but a zero-record resource raises AttributeError
instead of the intended no-data condition (the error message calls the
schema-record lookup on the abstract base class, whose abstract classmethod
returns None); EmailBody.from_avro bypasses the generic reader entirely and
has no record-count check, raising the same AttributeError on zero records,
and on a resource with records — here a well-formed two-record one — it
raises TypeError at the first EmailBody construction (the class is abstract)
rather than the too-many-records condition. -/
theorem C3_record_count_conditions :
    fromAvroGeneric ([] : List Nat) = .error .attributeError ∧
    (∀ (A : Type) (ds : List A), ds.length > 1 →
      fromAvroGeneric ds = .error (.tooManyRecords ds.length)) ∧
    emailBodyFromAvro [] = .error .attributeError ∧
    emailBodyFromAvro [[("message_body_text", .str "a"), ("message_body_html", .null)],
                       [("message_body_text", .str "b"), ("message_body_html", .null)]]
      = .error .typeError := by
  refine ⟨rfl, ?_, rfl, rfl⟩
  intro A ds h
  unfold fromAvroGeneric
  rw [if_pos h]

/-- C3 witness: a two-record resource raises the too-many-records condition
carrying the count two. -/
theorem C3_record_count_conditions_witness :
    fromAvroGeneric [1, 2] = .error (.tooManyRecords 2) :=
  C3_record_count_conditions.2.1 Nat [1, 2] (by decide)

/-- C4: the EmailAttachment, EmailEnvelope and EmailMessageMetadata
factories raise the missing-field deserialization condition naming the
absent key, the key count received and the keys present, for every single
missing required key; the EmailContainer factory does so only for its
metadata and envelope keys — a missing email_attachment_collection raises a
bare KeyError without those diagnostics because that key is read before the
try block, and the email_body key is never checked since the factory raises
AttributeError (EmailBody has no from_avro_as_dict) even on a complete
dictionary. -/
theorem C4_missing_key_diagnostics :
    (∀ v2 v3, attachmentFromAvroAsDict [("mimetype", v2), ("contents_base64", v3)] =
      .error (.missingField "filename" 2 ["mimetype", "contents_base64"])) ∧
    (∀ v1 v3, attachmentFromAvroAsDict [("filename", v1), ("contents_base64", v3)] =
      .error (.missingField "mimetype" 2 ["filename", "contents_base64"])) ∧
    (∀ v1 v2, attachmentFromAvroAsDict [("filename", v1), ("mimetype", v2)] =
      .error (.missingField "contents_base64" 2 ["filename", "mimetype"])) ∧
    (∀ v2 v3 v4, envelopeFromAvroAsDict
        [("address_to_collection", v2), ("message_subject", v3),
         ("message_rx_timestamp_iso8601", v4)] =
      .error (.missingField "address_from" 3
        ["address_to_collection", "message_subject", "message_rx_timestamp_iso8601"])) ∧
    (∀ v1 v3 v4, envelopeFromAvroAsDict
        [("address_from", v1), ("message_subject", v3),
         ("message_rx_timestamp_iso8601", v4)] =
      .error (.missingField "address_to_collection" 3
        ["address_from", "message_subject", "message_rx_timestamp_iso8601"])) ∧
    (∀ v1 v2 v4, envelopeFromAvroAsDict
        [("address_from", v1), ("address_to_collection", v2),
         ("message_rx_timestamp_iso8601", v4)] =
      .error (.missingField "message_subject" 3
        ["address_from", "address_to_collection", "message_rx_timestamp_iso8601"])) ∧
    (∀ v1 v2 v3, envelopeFromAvroAsDict
        [("address_from", v1), ("address_to_collection", v2), ("message_subject", v3)] =
      .error (.missingField "message_rx_timestamp_iso8601" 3
        ["address_from", "address_to_collection", "message_subject"])) ∧
    (∀ v2 v3 v4 v5 v6 v7, metadataFromAvroAsDict
        [("routed_timestamp_iso8601", v2), ("email_sender_ip", v3), ("attachment_count", v4),
         ("email_headers", v5), ("email_spf_sender_passed", v6),
         ("email_dkim_sender_passed", v7)] =
      .error (.missingField "router_source_tag" 6
        ["routed_timestamp_iso8601", "email_sender_ip", "attachment_count",
         "email_headers", "email_spf_sender_passed", "email_dkim_sender_passed"])) ∧
    (∀ v1 v3 v4 v5 v6 v7, metadataFromAvroAsDict
        [("router_source_tag", v1), ("email_sender_ip", v3), ("attachment_count", v4),
         ("email_headers", v5), ("email_spf_sender_passed", v6),
         ("email_dkim_sender_passed", v7)] =
      .error (.missingField "routed_timestamp_iso8601" 6
        ["router_source_tag", "email_sender_ip", "attachment_count",
         "email_headers", "email_spf_sender_passed", "email_dkim_sender_passed"])) ∧
    (∀ v1 v2 v4 v5 v6 v7, metadataFromAvroAsDict
        [("router_source_tag", v1), ("routed_timestamp_iso8601", v2), ("attachment_count", v4),
         ("email_headers", v5), ("email_spf_sender_passed", v6),
         ("email_dkim_sender_passed", v7)] =
      .error (.missingField "email_sender_ip" 6
        ["router_source_tag", "routed_timestamp_iso8601", "attachment_count",
         "email_headers", "email_spf_sender_passed", "email_dkim_sender_passed"])) ∧
    (∀ v1 v2 v3 v5 v6 v7, metadataFromAvroAsDict
        [("router_source_tag", v1), ("routed_timestamp_iso8601", v2), ("email_sender_ip", v3),
         ("email_headers", v5), ("email_spf_sender_passed", v6),
         ("email_dkim_sender_passed", v7)] =
      .error (.missingField "attachment_count" 6
        ["router_source_tag", "routed_timestamp_iso8601", "email_sender_ip",
         "email_headers", "email_spf_sender_passed", "email_dkim_sender_passed"])) ∧
    (∀ v1 v2 v3 v4 v6 v7, metadataFromAvroAsDict
        [("router_source_tag", v1), ("routed_timestamp_iso8601", v2), ("email_sender_ip", v3),
         ("attachment_count", v4), ("email_spf_sender_passed", v6),
         ("email_dkim_sender_passed", v7)] =
      .error (.missingField "email_headers" 6
        ["router_source_tag", "routed_timestamp_iso8601", "email_sender_ip",
         "attachment_count", "email_spf_sender_passed", "email_dkim_sender_passed"])) ∧
    (∀ v1 v2 v3 v4 v5 v7, metadataFromAvroAsDict
        [("router_source_tag", v1), ("routed_timestamp_iso8601", v2), ("email_sender_ip", v3),
         ("attachment_count", v4), ("email_headers", v5),
         ("email_dkim_sender_passed", v7)] =
      .error (.missingField "email_spf_sender_passed" 6
        ["router_source_tag", "routed_timestamp_iso8601", "email_sender_ip",
         "attachment_count", "email_headers", "email_dkim_sender_passed"])) ∧
    (∀ v1 v2 v3 v4 v5 v6, metadataFromAvroAsDict
        [("router_source_tag", v1), ("routed_timestamp_iso8601", v2), ("email_sender_ip", v3),
         ("attachment_count", v4), ("email_headers", v5),
         ("email_spf_sender_passed", v6)] =
      .error (.missingField "email_dkim_sender_passed" 6
        ["router_source_tag", "routed_timestamp_iso8601", "email_sender_ip",
         "attachment_count", "email_headers", "email_spf_sender_passed"])) ∧
    (∀ v1 v2, containerFromAvroAsDict
        [("email_envelope", v1), ("email_body", v2),
         ("email_attachment_collection", .list [])] =
      .error (.missingField "email_message_metadata" 3
        ["email_envelope", "email_body", "email_attachment_collection"])) ∧
    (∀ v2, containerFromAvroAsDict
        [("email_message_metadata", .record sampleMetadataDict), ("email_body", v2),
         ("email_attachment_collection", .list [])] =
      .error (.missingField "email_envelope" 3
        ["email_message_metadata", "email_body", "email_attachment_collection"])) ∧
    (containerFromAvroAsDict containerDictNoAttachments =
      .error (.keyError "email_attachment_collection")) ∧
    (isMissingFieldError (containerFromAvroAsDict containerDictNoAttachments) = false) ∧
    (containerFromAvroAsDict sampleContainerDict = .error .attributeError) := by
  exact ⟨fun _ _ => rfl, fun _ _ => rfl, fun _ _ => rfl,
    fun _ _ _ => rfl, fun _ _ _ => rfl, fun _ _ _ => rfl, fun _ _ _ => rfl,
    fun _ _ _ _ _ _ => rfl, fun _ _ _ _ _ _ => rfl, fun _ _ _ _ _ _ => rfl,
    fun _ _ _ _ _ _ => rfl, fun _ _ _ _ _ _ => rfl, fun _ _ _ _ _ _ => rfl,
    fun _ _ _ _ _ _ => rfl,
    fun _ _ => rfl, fun _ => rfl, rfl, rfl, rfl⟩
